import Mathlib

/-!
Verification development for the PPG ML service (ml-service).

The Python sources are embedded shallowly over exact rationals:
numpy float arrays become `List ℚ`, fallible code returns
`Except String`, and the external numeric routines that the service
delegates to (scipy filter design/application, FFT resampling, Welch
PSD, peak detection, and the floating-point `sqrt`/`log10` primitives)
are threaded as an explicit `Externals` capability record, mirroring
the spec's treatment of them as external collaborators.
-/

namespace PPG

/-- Decidable equality for `Except` values, needed to evaluate the
embedded fallible functions on closed inputs. -/
instance instDecEqExcept {ε α : Type} [DecidableEq ε] [DecidableEq α] :
    DecidableEq (Except ε α) := fun a b =>
  match a, b with
  | Except.ok x, Except.ok y =>
    match decEq x y with
    | isTrue h => isTrue (by rw [h])
    | isFalse h => isFalse (fun he => h (Except.ok.inj he))
  | Except.ok _, Except.error _ => isFalse (fun he => Except.noConfusion he)
  | Except.error _, Except.ok _ => isFalse (fun he => Except.noConfusion he)
  | Except.error x, Except.error y =>
    match decEq x y with
    | isTrue h => isTrue (by rw [h])
    | isFalse h => isFalse (fun he => h (Except.error.inj he))

/-- Python `min` of two floats (first argument returned on ties).
Defined by the primitive comparison so that closed instances of the
embedding evaluate inside the kernel; agrees with `Min.min` by
`pymin_eq_min` below. -/
def pymin (a b : ℚ) : ℚ := if b < a then b else a

/-- Python `max` of two floats (first argument returned on ties). -/
def pymax (a b : ℚ) : ℚ := if a < b then b else a

/-- Python `min` of two ints. -/
def pyminI (a b : ℤ) : ℤ := if b < a then b else a

/-- Arithmetic mean, `np.mean`.  On the empty list Lean's total division
gives 0 (numpy would give NaN; no claim depends on that case). -/
def mean (l : List ℚ) : ℚ := l.sum / (l.length : ℚ)

/-- Population variance, `np.var` (ddof = 0): mean squared deviation. -/
def variance (l : List ℚ) : ℚ := mean (l.map (fun x => (x - mean l) ^ 2))

/-- Consecutive differences, `np.diff`. -/
def np_diff (l : List ℚ) : List ℚ := (l.zip l.tail).map (fun p => p.2 - p.1)

/-- Clamp `np.clip x lo hi = np.minimum(hi, np.maximum(x, lo))`. -/
def np_clip (x lo hi : ℚ) : ℚ := pymin (pymax x lo) hi

/-- Helper for `np_argmax`: index of the first maximal element. -/
def np_argmax_aux : List ℚ → ℕ → ℕ → ℚ → ℕ
  | [], _, best, _ => best
  | x :: xs, i, best, bestVal =>
    if bestVal < x then np_argmax_aux xs (i + 1) i x
    else np_argmax_aux xs (i + 1) best bestVal

/-- Index of the first maximal element, `np.argmax` (0 on the empty list). -/
def np_argmax : List ℚ → ℕ
  | [] => 0
  | x :: xs => np_argmax_aux xs 1 0 x

/-- Python `int()` applied to a float: truncation toward zero. -/
def pyInt (x : ℚ) : ℤ := if x < 0 then -((-x).floor) else x.floor

/-- The filter design handed to `scipy.signal.butter` in
`preprocessing/ppg.py`: either a Butterworth bandpass with the two
normalized cutoffs, or the highpass-only fallback. -/
inductive FilterSpec where
  | band (low high : ℚ)
  | highpass (cutoff : ℚ)
deriving DecidableEq

/-- External numeric capabilities consumed by the service.  Each field is
one of the library calls the Python code makes: `applyFilter` is
`scipy.signal.butter` followed by `filtfilt` (it can raise, e.g. when
the signal is shorter than `filtfilt`'s padding), `resample` is the
FFT-based `scipy.signal.resample` at a requested output length,
`welch` returns the parallel `(freqs, psd)` arrays of
`scipy.signal.welch` at the given `nperseg`, `find_peaks` is
`scipy.signal.find_peaks` with a `distance` argument (it raises when
`distance < 1`), and `sqrt`/`log10` are the floating-point scalar
primitives used by `np.std` and `np.log10`. -/
structure Externals where
  applyFilter : FilterSpec → List ℚ → Except String (List ℚ)
  resample : List ℚ → ℤ → Except String (List ℚ)
  welch : List ℚ → ℚ → ℤ → List ℚ × List ℚ
  find_peaks : List ℚ → ℤ → Except String (List ℕ)
  sqrt : ℚ → ℚ
  log10 : ℚ → ℚ

/-- Cutoff clamping of `preprocessing/ppg.py` lines 52-53:
`max(0.01, min(x, 0.99))`. -/
def clamp_norm (x : ℚ) : ℚ := pymax (1 / 100) (pymin x (99 / 100))

/-- Clamp into `[1e-4, 0.999]` as the specification words it
(spec §4.1), kept only for comparison with `clamp_norm`. -/
def spec_clamp_norm (x : ℚ) : ℚ := pymax (1 / 10000) (pymin x (999 / 1000))

/-- Filter design of `preprocessing/ppg.py` lines 47-61: normalize the
cutoffs by the Nyquist frequency, clamp them with `clamp_norm`, and
fall back to a highpass-only design when `low_norm < high_norm` fails.
The highpass fallback re-normalizes `filter_high` and only applies the
upper clamp, exactly as line 60 does. -/
def designed_filter (fs_original filter_low filter_high : ℚ) : FilterSpec :=
  let nyquist := fs_original / 2
  let low_norm := clamp_norm (filter_low / nyquist)
  let high_norm := clamp_norm (filter_high / nyquist)
  if low_norm < high_norm then FilterSpec.band low_norm high_norm
  else FilterSpec.highpass (pymin (filter_high / nyquist) (99 / 100))

/-- Resampled length computed at `preprocessing/ppg.py` line 66:
`int(len(filtered_signal) * fs_target / fs_original)`. -/
def resample_num_samples (inputLength : ℕ) (fs_target fs_original : ℚ) : ℤ :=
  pyInt ((inputLength : ℚ) * fs_target / fs_original)

/-- Embedding of `preprocess_ppg_signal` (preprocessing/ppg.py lines
11-73): reject signals shorter than 10 samples, optionally remove DC,
design and apply the bandpass (or highpass-fallback) filter, and
resample to the target rate when the rates differ by more than 0.1 Hz.
Python raises ZeroDivisionError at line 48 when `fs_original` is 0;
since division on ℚ is total, that raise is made explicit here. -/
def preprocess_ppg_signal (ext : Externals) (waveform : List ℚ)
    (fs_original fs_target filter_low filter_high : ℚ) (remove_dc : Bool) :
    Except String (List ℚ × ℚ) :=
  if waveform.length < 10 then Except.error ("Signal too short for processing")
  else
    let wf := if remove_dc then waveform.map (fun x => x - mean waveform) else waveform
    if fs_original = 0 then Except.error ("ZeroDivisionError: float division by zero")
    else
      match ext.applyFilter (designed_filter fs_original filter_low filter_high) wf with
      | Except.error e => Except.error e
      | Except.ok filtered =>
        if |fs_original - fs_target| > 1 / 10 then
          match ext.resample filtered (resample_num_samples filtered.length fs_target fs_original) with
          | Except.error e => Except.error e
          | Except.ok resampled => Except.ok (resampled, fs_target)
        else Except.ok (filtered, fs_original)

/-- Pairs `(frequency, power)` of the Welch output whose frequency lies
in the closed band `[lo, hi]`; the boolean masks of
`preprocessing/ppg.py` lines 137-138 applied to the parallel arrays. -/
def band_pairs (freqs psd : List ℚ) (lo hi : ℚ) : List (ℚ × ℚ) :=
  (freqs.zip psd).filter (fun p => decide (lo ≤ p.1 ∧ p.1 ≤ hi))

/-- Embedding of `calculate_snr` (preprocessing/ppg.py lines 119-148):
mean power in the `[0.5, 4]` Hz band against the `[4, 8]` Hz band,
`10 * log10` of the ratio, with 0 dB returned when either band is
empty or the noise power is not positive. -/
def calculate_snr (ext : Externals) (signal : List ℚ) (fs : ℚ) : ℚ :=
  let fp := ext.welch signal fs (pyminI (signal.length : ℤ) (pyInt (fs * 4)))
  let signal_band := band_pairs fp.1 fp.2 (1 / 2) 4
  let noise_band := band_pairs fp.1 fp.2 4 8
  if signal_band.isEmpty || noise_band.isEmpty then 0
  else
    let signal_power := mean (signal_band.map Prod.snd)
    let noise_power := mean (noise_band.map Prod.snd)
    if 0 < noise_power then 10 * ext.log10 (signal_power / noise_power)
    else 0

/-- Embedding of `estimate_heart_rate_traditional` (main.py lines
197-206): peak detection with minimum distance `int(fs * 0.4)`, null
for fewer than 2 peaks, else `60 / mean(inter-peak intervals)` clipped
to `[40, 200]`. -/
def estimate_heart_rate_traditional (ext : Externals) (signal : List ℚ) (fs : ℚ) :
    Except String (Option ℚ) :=
  match ext.find_peaks signal (pyInt (fs * (2 / 5))) with
  | Except.error e => Except.error e
  | Except.ok peaks =>
    if peaks.length < 2 then Except.ok none
    else
      let intervals := (np_diff (peaks.map (fun n => (n : ℚ)))).map (fun d => d / fs)
      Except.ok (some (np_clip (60 / mean intervals) 40 200))

/-- Embedding of `estimate_hrv_traditional` (main.py lines 209-217):
null for fewer than 3 peaks, else the standard deviation (`np.std`,
via the external `sqrt`) of the inter-peak intervals in ms. -/
def estimate_hrv_traditional (ext : Externals) (signal : List ℚ) (fs : ℚ) :
    Except String (Option ℚ) :=
  match ext.find_peaks signal (pyInt (fs * (2 / 5))) with
  | Except.error e => Except.error e
  | Except.ok peaks =>
    if peaks.length < 3 then Except.ok none
    else
      let intervals := (np_diff (peaks.map (fun n => (n : ℚ)))).map (fun d => d / fs * 1000)
      Except.ok (some (ext.sqrt (variance intervals)))

/-- Embedding of `estimate_respiratory_rate_traditional` (main.py lines
220-230): frequency of maximum Welch power in the `[0.15, 0.4]` Hz
band, times 60; null when no bin falls in the band. -/
def estimate_respiratory_rate_traditional (ext : Externals) (signal : List ℚ) (fs : ℚ) :
    Option ℚ :=
  let fp := ext.welch signal fs (pyminI (signal.length : ℤ) (pyInt (fs * 4)))
  let pairs := band_pairs fp.1 fp.2 (3 / 20) (2 / 5)
  if pairs.isEmpty then none
  else some ((pairs.map Prod.fst).getD (np_argmax (pairs.map Prod.snd)) 0 * 60)

/-- Embedding of `calculate_signal_quality_from_embeddings` (main.py
lines 233-242): 0 for an empty embedding vector, else the variance
normalized by 10 and clamped to at most 1. -/
def calculate_signal_quality_from_embeddings (embeddings : List ℚ) : ℚ :=
  if embeddings.length = 0 then 0
  else pymin (variance embeddings / 10) 1

/-- The `PPGAnalysisResponse` pydantic model of main.py lines 101-111,
with its default field values. -/
structure PPGAnalysisResponse where
  success : Bool
  heartRate : Option ℚ := none
  heartRateVariability : Option ℚ := none
  respiratoryRate : Option ℚ := none
  signalQuality : ℚ
  confidence : Option ℚ := none
  embeddings : Option (List ℚ) := none
  warnings : List String := []
  error : Option String := none
deriving DecidableEq, Repr

/-- The TypeError message produced by the call at main.py line 156. -/
def missing_fs_message : String :=
  "TypeError: extract_embeddings missing 1 required positional argument fs"

/-- Embedding of the call `papagei_model.extract_embeddings(processed_signal)`
at main.py line 156.  The method `PaPaGeiModel.extract_embeddings`
(models/papagei.py line 111) takes two required positional arguments,
`signal` and `fs`; the call site passes only the processed signal, so
Python raises TypeError before the model is ever consulted (compare
test_service.py line 138, which passes `fs=125.0`).  The call therefore
always fails. -/
def call_extract_embeddings (_processed : List ℚ) : Except String (List ℚ) :=
  Except.error missing_fs_message

/-- The body of the `try` block of `analyze_ppg` (main.py lines
131-176): short signals return the insufficient-data failure response,
otherwise preprocessing, embedding extraction and the traditional
estimators run in sequence and a success response is assembled; an
`Except.error` models an exception escaping to the `except` handler. -/
def analyze_try (ext : Externals) (signal : List ℚ) (frameRate : ℚ) :
    Except String PPGAnalysisResponse :=
  if signal.length < 30 then
    Except.ok { success := false, signalQuality := 0,
                error := some ("Insufficient signal data (minimum 30 samples required)") }
  else
    match preprocess_ppg_signal ext signal frameRate 125 (1 / 2) 8 true with
    | Except.error e => Except.error e
    | Except.ok (processed, fs_target) =>
      match call_extract_embeddings processed with
      | Except.error e => Except.error e
      | Except.ok embeddings =>
        match estimate_heart_rate_traditional ext processed fs_target with
        | Except.error e => Except.error e
        | Except.ok heart_rate =>
          match estimate_hrv_traditional ext processed fs_target with
          | Except.error e => Except.error e
          | Except.ok hrv =>
            let respiratory_rate := estimate_respiratory_rate_traditional ext processed fs_target
            let signal_quality := calculate_signal_quality_from_embeddings embeddings
            Except.ok { success := true,
                        heartRate := heart_rate,
                        heartRateVariability := hrv,
                        respiratoryRate := respiratory_rate,
                        signalQuality := signal_quality,
                        confidence := some (pymin (signal_quality * (6 / 5)) 1),
                        warnings := if signal_quality > 7 / 10 then []
                                    else [("Low signal quality detected")] }

/-- Outcome of a request to `/api/ppg/analyze`: either the HTTPException
raised before the `try` block, or a response body. -/
inductive AnalyzeOutcome where
  | httpError (status : ℕ) (detail : String)
  | response (r : PPGAnalysisResponse)
deriving DecidableEq, Repr

/-- True exactly when the outcome is a response body rather than an
HTTP error. -/
def AnalyzeOutcome.isResponse : AnalyzeOutcome → Bool
  | AnalyzeOutcome.response _ => true
  | AnalyzeOutcome.httpError _ _ => false

/-- The failure response body the `except` handler at main.py lines
178-183 builds from a caught exception message. -/
def failure_response (e : String) : PPGAnalysisResponse :=
  { success := false, signalQuality := 0,
    error := some (("Processing error: ") ++ e) }

/-- Embedding of the `analyze_ppg` endpoint (main.py lines 114-183):
a 503 HTTPException when the model is not loaded (lines 125-129),
otherwise the `try` body, every exception of which is converted by the
`except` handler (lines 178-183) into a failure response. -/
def analyze_ppg (modelLoaded : Bool) (ext : Externals) (signal : List ℚ) (frameRate : ℚ) :
    AnalyzeOutcome :=
  if modelLoaded then
    match analyze_try ext signal frameRate with
    | Except.ok r => AnalyzeOutcome.response r
    | Except.error e => AnalyzeOutcome.response (failure_response e)
  else
    AnalyzeOutcome.httpError 503
      ("Model not loaded. Please check server logs and ensure model weights are downloaded.")

/-- A concrete `Externals` instance used to evaluate the embedding on
closed inputs: the filter passes the signal through unchanged
(`filtfilt` preserves length, and succeeds on the inputs used below,
which all exceed its default padding requirement of 27 samples for
the order-4 bandpass design), the resampler returns the requested
number of samples (the documented `scipy.signal.resample` contract),
Welch returns empty arrays and no peaks are detected. -/
def extDefault : Externals where
  applyFilter := fun _ s => Except.ok s
  resample := fun _ n => Except.ok (List.replicate n.toNat 0)
  welch := fun _ _ _ => ([], [])
  find_peaks := fun _ _ => Except.ok []
  sqrt := fun _ => 0
  log10 := fun _ => 0

/-- `extDefault` with a peak detector that reports peaks at samples 0
and 50. -/
def extFP : Externals :=
  { extDefault with find_peaks := fun _ _ => Except.ok [0, 50] }

/-- `extDefault` with a Welch transform reporting power 2 at 1 Hz and
power 3 at 5 Hz, and a nontrivial `log10` primitive. -/
def extW : Externals :=
  { extDefault with welch := fun _ _ _ => ([1, 5], [2, 3]), log10 := fun x => x + 1 }

/-!  Helper lemmas. -/

theorem pymin_eq_min (a b : ℚ) : pymin a b = min a b := by
  unfold pymin
  rcases lt_or_le b a with h | h
  · rw [if_pos h, min_eq_right h.le]
  · rw [if_neg (not_lt.mpr h), min_eq_left h]

theorem pymax_eq_max (a b : ℚ) : pymax a b = max a b := by
  unfold pymax
  rcases lt_or_le a b with h | h
  · rw [if_pos h, max_eq_right h.le]
  · rw [if_neg (not_lt.mpr h), max_eq_left h]

theorem pyminI_eq_min (a b : ℤ) : pyminI a b = min a b := by
  unfold pyminI
  rcases lt_or_le b a with h | h
  · rw [if_pos h, min_eq_right h.le]
  · rw [if_neg (not_lt.mpr h), min_eq_left h]

theorem rat_floor_eq_intFloor (a : ℚ) : a.floor = ⌊a⌋ := by
  rw [Rat.floor_def, Rat.floor_def']

theorem pyInt_of_nonneg {x : ℚ} (h : 0 ≤ x) : pyInt x = ⌊x⌋ := by
  unfold pyInt
  rw [if_neg (not_lt.mpr h), rat_floor_eq_intFloor]

theorem mean_nonneg {l : List ℚ} (h : ∀ x ∈ l, 0 ≤ x) : 0 ≤ mean l := by
  unfold mean
  exact div_nonneg (List.sum_nonneg h) (Nat.cast_nonneg _)

theorem variance_nonneg (l : List ℚ) : 0 ≤ variance l := by
  unfold variance
  apply mean_nonneg
  intro x hx
  simp only [List.mem_map] at hx
  obtain ⟨y, _, rfl⟩ := hx
  positivity

theorem band_pairs_snd_mem {freqs psd : List ℚ} {lo hi : ℚ} {p : ℚ × ℚ}
    (hp : p ∈ band_pairs freqs psd lo hi) : p.2 ∈ psd := by
  unfold band_pairs at hp
  obtain ⟨a, b⟩ := p
  exact (List.of_mem_zip (List.mem_filter.mp hp).1).2

theorem clamp_norm_bounds (x : ℚ) : 1 / 100 ≤ clamp_norm x ∧ clamp_norm x ≤ 99 / 100 := by
  unfold clamp_norm
  rw [pymax_eq_max, pymin_eq_min]
  exact ⟨le_max_left _ _, max_le (by norm_num) (min_le_right _ _)⟩

/-- Closed evaluation: preprocessing 35 samples at 30 Hz toward 125 Hz
resamples to 145 samples (truncation of 145.83).  The input length 35
exceeds the 27-sample padding requirement of the real order-4 bandpass
`filtfilt`, so the filter stage also succeeds in the real pipeline and
line 66 of preprocessing/ppg.py is genuinely reached. -/
theorem preprocess_run_35 :
    preprocess_ppg_signal extDefault (List.replicate 35 0) 30 125 (1 / 2) 8 true =
      Except.ok (List.replicate 145 0, 125) := by
  have hfl : pyInt ((35 : ℚ) * 125 / 30) = 145 := by
    rw [pyInt_of_nonneg (by norm_num), Int.floor_eq_iff]
    norm_num
  simp [preprocess_ppg_signal, extDefault, resample_num_samples, hfl]
  rw [abs_sub_comm, abs_of_nonneg (by norm_num : (0 : ℚ) ≤ 125 - 30)]
  norm_num

/-- Closed evaluation: with pass-through externals, a valid 30-sample
request reaches the embedding call at main.py line 156 and dies on the
missing `fs` argument. -/
theorem analyze_try_default_run :
    analyze_try extDefault (List.replicate 30 0) 125 = Except.error missing_fs_message := by
  simp [analyze_try, preprocess_ppg_signal, extDefault, call_extract_embeddings, sub_self,
    abs_zero]
  norm_num

/-- C1 (amended): if the embedding model is not loaded, `analyze_ppg`
aborts every request with an HTTP 503 error; no response body (and in
particular no fallback `VitalEstimate` with a warning) is produced. -/
theorem analyze_model_not_loaded_aborts (ext : Externals) (signal : List ℚ) (frameRate : ℚ) :
    analyze_ppg false ext signal frameRate =
      AnalyzeOutcome.httpError 503
        ("Model not loaded. Please check server logs and ensure model weights are downloaded.") :=
  rfl

/-- C1 counterexample: with the model not loaded and an otherwise valid
30-sample signal, `analyze_ppg` does not return any response body at
all (so it cannot return a `VitalEstimate` with a warning annotation,
as the claim states): it aborts with the 503 error. -/
theorem analyze_model_not_loaded_cex :
    (analyze_ppg false extDefault (List.replicate 30 0) 125).isResponse = false ∧
    analyze_ppg false extDefault (List.replicate 30 0) 125 =
      AnalyzeOutcome.httpError 503
        ("Model not loaded. Please check server logs and ensure model weights are downloaded.") :=
  ⟨rfl, rfl⟩

/-- C2 (amended): whenever the FilterStage designs a bandpass filter,
the two cutoffs it uses are the Nyquist-normalized cutoffs clamped into
the interval `[0.01, 0.99]` (not `[1e-4, 0.999]`). -/
theorem filter_cutoffs_clamped (fs_original filter_low filter_high l h : ℚ)
    (hb : designed_filter fs_original filter_low filter_high = FilterSpec.band l h) :
    l = clamp_norm (filter_low / (fs_original / 2)) ∧
    h = clamp_norm (filter_high / (fs_original / 2)) ∧
    1 / 100 ≤ l ∧ l ≤ 99 / 100 ∧ 1 / 100 ≤ h ∧ h ≤ 99 / 100 := by
  simp only [designed_filter] at hb
  by_cases hc : clamp_norm (filter_low / (fs_original / 2)) <
      clamp_norm (filter_high / (fs_original / 2))
  · rw [if_pos hc] at hb
    cases hb
    exact ⟨rfl, rfl, (clamp_norm_bounds _).1, (clamp_norm_bounds _).2,
      (clamp_norm_bounds _).1, (clamp_norm_bounds _).2⟩
  · rw [if_neg hc] at hb
    cases hb

/-- C2 witness: at the pipeline's own configuration (125 Hz, cutoffs
0.5 and 8 Hz) the designed bandpass uses clamped cutoffs 0.01 and
0.128. -/
theorem filter_cutoffs_clamped_witness :
    designed_filter 125 (1 / 2) 8 = FilterSpec.band (1 / 100) (16 / 125) ∧
    ((1 : ℚ) / 100 = clamp_norm ((1 / 2) / (125 / 2)) ∧
      (16 : ℚ) / 125 = clamp_norm (8 / (125 / 2)) ∧
      1 / 100 ≤ (1 : ℚ) / 100 ∧ (1 : ℚ) / 100 ≤ 99 / 100 ∧
      1 / 100 ≤ (16 : ℚ) / 125 ∧ (16 : ℚ) / 125 ≤ 99 / 100) := by
  have hb : designed_filter 125 (1 / 2) 8 = FilterSpec.band (1 / 100) (16 / 125) := by
    norm_num [designed_filter, clamp_norm, pymin, pymax]
  exact ⟨hb, filter_cutoffs_clamped 125 (1 / 2) 8 (1 / 100) (16 / 125) hb⟩

/-- C2 counterexample: at 125 Hz the normalized low cutoff is
0.5/62.5 = 0.008; clamping into `[1e-4, 0.999]` as the claim states
would keep it at 0.008, but the code designs the filter with 0.01. -/
theorem filter_cutoffs_clamp_cex :
    designed_filter 125 (1 / 2) 8 = FilterSpec.band (1 / 100) (16 / 125) ∧
    spec_clamp_norm ((1 / 2) / (125 / 2)) = 1 / 125 ∧ ((1 : ℚ) / 100) ≠ 1 / 125 := by
  refine ⟨?_, ?_, by norm_num⟩
  · norm_num [designed_filter, clamp_norm, pymin, pymax]
  · norm_num [spec_clamp_norm, pymin, pymax]

/-- C3 (amended): when resampling is performed (rates differ by more
than 0.1 Hz) and the external filter and resampler honour their length
contracts, the output length is the truncation (floor, via Python
`int()`) of `inputLength * targetRate / sourceRate`, not its rounding,
and the returned rate is the target rate. -/
theorem resample_output_length_floor (ext : Externals) (signal : List ℚ)
    (fs_original fs_target filter_low filter_high : ℚ)
    (hfo : 0 < fs_original) (hft : 0 ≤ fs_target)
    (hdiff : |fs_original - fs_target| > 1 / 10)
    (hFilterLen : ∀ spec s f, ext.applyFilter spec s = Except.ok f → f.length = s.length)
    (hResLen : ∀ s n r, 0 ≤ n → ext.resample s n = Except.ok r → r.length = n.toNat)
    (out : List ℚ) (fsOut : ℚ)
    (hok : preprocess_ppg_signal ext signal fs_original fs_target filter_low filter_high true =
      Except.ok (out, fsOut)) :
    out.length = (⌊(signal.length : ℚ) * fs_target / fs_original⌋).toNat ∧
    fsOut = fs_target := by
  simp only [preprocess_ppg_signal] at hok
  by_cases hlen : signal.length < 10
  · rw [if_pos hlen] at hok
    cases hok
  rw [if_neg hlen, if_neg hfo.ne', if_pos trivial] at hok
  cases hf : ext.applyFilter (designed_filter fs_original filter_low filter_high)
      (List.map (fun x => x - mean signal) signal) with
  | error e => simp only [hf] at hok; exact Except.noConfusion hok
  | ok filtered =>
    simp only [hf, if_pos hdiff] at hok
    have hflen : filtered.length = signal.length := by
      rw [hFilterLen _ _ _ hf, List.length_map]
    have hnum : resample_num_samples filtered.length fs_target fs_original =
        ⌊(signal.length : ℚ) * fs_target / fs_original⌋ := by
      rw [resample_num_samples, hflen, pyInt_of_nonneg]
      positivity
    cases hr : ext.resample filtered (resample_num_samples filtered.length fs_target fs_original)
        with
    | error e => simp only [hr] at hok; exact Except.noConfusion hok
    | ok res =>
      simp only [hr] at hok
      cases hok
      refine ⟨?_, rfl⟩
      rw [hResLen _ _ _ ?_ hr, hnum]
      rw [hnum]
      exact Int.floor_nonneg.mpr (by positivity)

/-- C3 witness: 35 samples at 30 Hz resampled toward 125 Hz give
`floor(35 * 125 / 30) = 145` output samples. -/
theorem resample_output_length_floor_witness :
    preprocess_ppg_signal extDefault (List.replicate 35 0) 30 125 (1 / 2) 8 true =
      Except.ok (List.replicate 145 0, 125) ∧
    (List.replicate 145 (0 : ℚ)).length =
      (⌊((List.replicate 35 (0 : ℚ)).length : ℚ) * 125 / 30⌋).toNat := by
  refine ⟨preprocess_run_35, ?_⟩
  have h := resample_output_length_floor extDefault (List.replicate 35 0) 30 125 (1 / 2) 8
    (by norm_num) (by norm_num)
    (by rw [abs_sub_comm, abs_of_nonneg (by norm_num : (0 : ℚ) ≤ 125 - 30)]; norm_num)
    (fun spec s f hf => by cases hf; rfl)
    (fun s n r hn hr => by cases hr; simp)
    (List.replicate 145 0) 125 preprocess_run_35
  exact h.1

/-- C3 counterexample: for 35 input samples at 30 Hz toward 125 Hz the
code produces 145 output samples (and at that length the real filter
stage succeeds, so the resample line is reached), while
`round(35 * 125 / 30) = 146`: the output length is not the rounding
the claim states. -/
theorem resample_output_length_round_cex :
    preprocess_ppg_signal extDefault (List.replicate 35 0) 30 125 (1 / 2) 8 true =
      Except.ok (List.replicate 145 0, 125) ∧
    ((List.replicate 145 (0 : ℚ)).length : ℤ) ≠
      round (((List.replicate 35 (0 : ℚ)).length : ℚ) * 125 / 30) := by
  refine ⟨preprocess_run_35, ?_⟩
  have hr : round (((List.replicate 35 (0 : ℚ)).length : ℚ) * 125 / 30) = 146 := by
    simp only [List.length_replicate]
    rw [round_eq, Int.floor_eq_iff]
    norm_num
  rw [hr]
  simp

/-- C5: with the model loaded, every signal of fewer than 30 samples
makes `analyze_ppg` fail with the structured insufficient-signal-data
validation failure, with no heart-rate, HRV or respiratory-rate value
produced. -/
theorem analyze_short_signal_fails (ext : Externals) (signal : List ℚ) (frameRate : ℚ)
    (h : signal.length < 30) :
    analyze_ppg true ext signal frameRate =
      AnalyzeOutcome.response
        { success := false, heartRate := none, heartRateVariability := none,
          respiratoryRate := none, signalQuality := 0, confidence := none,
          embeddings := none, warnings := [],
          error := some (("Insufficient signal data (minimum 30 samples required)")) } := by
  simp [analyze_ppg, analyze_try, h]

/-- C5 witness: a 5-sample signal is rejected with the validation
failure. -/
theorem analyze_short_signal_fails_witness :
    (List.replicate 5 (0 : ℚ)).length < 30 ∧
    analyze_ppg true extDefault (List.replicate 5 0) 125 =
      AnalyzeOutcome.response
        { success := false, heartRate := none, heartRateVariability := none,
          respiratoryRate := none, signalQuality := 0, confidence := none,
          embeddings := none, warnings := [],
          error := some (("Insufficient signal data (minimum 30 samples required)")) } :=
  ⟨by simp, analyze_short_signal_fails extDefault _ 125 (by simp)⟩

/-- C6: for every signal and rate on which peak detection succeeds,
the heart-rate estimator returns null (not an error) when fewer than 2
peaks are detected, and otherwise 60 divided by the mean inter-peak
interval in seconds, clipped into `[40, 200]` BPM. -/
theorem heart_rate_peak_cases (ext : Externals) (signal : List ℚ) (fs : ℚ) (peaks : List ℕ)
    (hp : ext.find_peaks signal (pyInt (fs * (2 / 5))) = Except.ok peaks) :
    (peaks.length < 2 → estimate_heart_rate_traditional ext signal fs = Except.ok none) ∧
    (2 ≤ peaks.length → estimate_heart_rate_traditional ext signal fs =
      Except.ok (some (np_clip
        (60 / mean ((np_diff (peaks.map (fun n => (n : ℚ)))).map (fun d => d / fs)))
        40 200))) := by
  simp only [estimate_heart_rate_traditional, hp]
  constructor
  · intro h
    rw [if_pos h]
  · intro h
    rw [if_neg (not_lt.mpr h)]

/-- C6 witness: with peaks detected at samples 0 and 50 of a 125 Hz
signal, the mean interval is 0.4 s and the estimate is 150 BPM. -/
theorem heart_rate_peak_cases_witness :
    extFP.find_peaks [] (pyInt (125 * (2 / 5))) = Except.ok [0, 50] ∧
    estimate_heart_rate_traditional extFP [] 125 = Except.ok (some 150) := by
  refine ⟨rfl, ?_⟩
  have h := (heart_rate_peak_cases extFP [] 125 [0, 50] rfl).2 (by norm_num)
  rw [h]
  norm_num [np_diff, mean, np_clip, pymin, pymax]

/-- C7: `calculate_snr` returns `10 * log10(meanPower(signal band) /
meanPower(noise band))` over the Welch bands `[0.5, 4]` and `[4, 8]`
Hz, and returns exactly 0 dB whenever either band has no bins or the
noise-band power is zero. -/
theorem snr_formula_and_floor (ext : Externals) (signal : List ℚ) (fs : ℚ)
    (freqs psd : List ℚ)
    (hw : ext.welch signal fs (pyminI (signal.length : ℤ) (pyInt (fs * 4))) = (freqs, psd))
    (hpsd : ∀ p ∈ psd, 0 ≤ p) :
    (band_pairs freqs psd (1 / 2) 4 ≠ [] → band_pairs freqs psd 4 8 ≠ [] →
      mean ((band_pairs freqs psd 4 8).map Prod.snd) ≠ 0 →
      calculate_snr ext signal fs =
        10 * ext.log10 (mean ((band_pairs freqs psd (1 / 2) 4).map Prod.snd) /
          mean ((band_pairs freqs psd 4 8).map Prod.snd))) ∧
    ((band_pairs freqs psd (1 / 2) 4 = [] ∨ band_pairs freqs psd 4 8 = [] ∨
      mean ((band_pairs freqs psd 4 8).map Prod.snd) = 0) →
      calculate_snr ext signal fs = 0) := by
  have hnp : 0 ≤ mean ((band_pairs freqs psd 4 8).map Prod.snd) := by
    apply mean_nonneg
    intro x hx
    simp only [List.mem_map] at hx
    obtain ⟨p, hpmem, rfl⟩ := hx
    exact hpsd _ (band_pairs_snd_mem hpmem)
  simp only [calculate_snr, hw]
  constructor
  · intro h1 h2 h3
    have hside : ¬(((band_pairs freqs psd (1 / 2) 4).isEmpty ||
        (band_pairs freqs psd 4 8).isEmpty) = true) := by
      rw [Bool.or_eq_true, List.isEmpty_iff, List.isEmpty_iff]
      exact fun hc => hc.elim h1 h2
    rw [if_neg hside, if_pos (lt_of_le_of_ne hnp (Ne.symm h3))]
  · intro hcase
    rcases hcase with h | h | h
    · have hside : ((band_pairs freqs psd (1 / 2) 4).isEmpty ||
          (band_pairs freqs psd 4 8).isEmpty) = true := by
        rw [Bool.or_eq_true, List.isEmpty_iff, List.isEmpty_iff]
        exact Or.inl h
      rw [if_pos hside]
    · have hside : ((band_pairs freqs psd (1 / 2) 4).isEmpty ||
          (band_pairs freqs psd 4 8).isEmpty) = true := by
        rw [Bool.or_eq_true, List.isEmpty_iff, List.isEmpty_iff]
        exact Or.inr h
      rw [if_pos hside]
    · by_cases he : ((band_pairs freqs psd (1 / 2) 4).isEmpty ||
          (band_pairs freqs psd 4 8).isEmpty) = true
      · rw [if_pos he]
      · rw [if_neg he, if_neg]
        rw [h]
        exact lt_irrefl 0

/-- C7 witness: Welch bins at 1 Hz (power 2) and 5 Hz (power 3) give
both bands one bin each and SNR `10 * log10(2/3)`, evaluated through
the external `log10` of `extW` as 50/3. -/
theorem snr_formula_and_floor_witness :
    extW.welch [] 125 (pyminI ((([] : List ℚ).length : ℤ)) (pyInt (125 * 4))) = ([1, 5], [2, 3]) ∧
    calculate_snr extW [] 125 = 10 * extW.log10 (2 / 3) ∧
    calculate_snr extW [] 125 = 50 / 3 := by
  have h := (snr_formula_and_floor extW [] 125 [1, 5] [2, 3] rfl (by norm_num)).1
    (by norm_num [band_pairs, List.filter]) (by norm_num [band_pairs, List.filter])
    (by norm_num [band_pairs, List.filter, mean])
  have hbands : calculate_snr extW [] 125 = 10 * extW.log10 (2 / 3) := by
    rw [h]
    norm_num [band_pairs, List.filter, mean]
  refine ⟨rfl, hbands, ?_⟩
  rw [hbands]
  norm_num [extW, extDefault]

/-- C8: the embedding-based quality score lies in `[0, 1]` for every
embedding vector, and for nonempty vectors it equals
`min(variance / 10, 1)`; variance 0 gives quality exactly 0 and any
variance at least the normalizer 10 gives quality exactly 1. -/
theorem embedding_quality_formula (e : List ℚ) :
    (0 ≤ calculate_signal_quality_from_embeddings e ∧
      calculate_signal_quality_from_embeddings e ≤ 1) ∧
    (e ≠ [] →
      calculate_signal_quality_from_embeddings e = min (variance e / 10) 1 ∧
      (variance e = 0 → calculate_signal_quality_from_embeddings e = 0) ∧
      (10 ≤ variance e → calculate_signal_quality_from_embeddings e = 1)) := by
  have hv := variance_nonneg e
  by_cases he : e.length = 0
  · constructor
    · simp [calculate_signal_quality_from_embeddings, he]
    · intro hne
      exact absurd (List.length_eq_zero.mp he) hne
  · have hq : calculate_signal_quality_from_embeddings e = min (variance e / 10) 1 := by
      simp [calculate_signal_quality_from_embeddings, he, pymin_eq_min]
    refine ⟨⟨?_, ?_⟩, fun _ => ⟨hq, ?_, ?_⟩⟩
    · rw [hq]
      exact le_min (by positivity) zero_le_one
    · rw [hq]
      exact min_le_right _ _
    · intro h0
      rw [hq, h0]
      norm_num
    · intro h10
      rw [hq, min_eq_right]
      rw [le_div_iff₀ (by norm_num)]
      linarith

/-- C8 witness: the all-zero embedding vector has variance 0 and
quality exactly 0. -/
theorem embedding_quality_formula_witness :
    ([(0 : ℚ), 0] ≠ []) ∧ variance [(0 : ℚ), 0] = 0 ∧
    calculate_signal_quality_from_embeddings [0, 0] = 0 := by
  have hvar : variance [(0 : ℚ), 0] = 0 := by norm_num [variance, mean]
  exact ⟨by simp, hvar, ((embedding_quality_formula [0, 0]).2 (by simp)).2.1 hvar⟩

/-- C9: with the model loaded, `analyze_ppg` always returns a response
body (no exception propagates to the caller), and whenever the try
body raises, the response is the structured failure with success
false, signalQuality 0, a processing-error message and no heart-rate,
HRV or respiratory-rate fields. -/
theorem analyze_converts_exceptions (ext : Externals) (signal : List ℚ) (frameRate : ℚ) :
    (∃ r, analyze_ppg true ext signal frameRate = AnalyzeOutcome.response r) ∧
    (∀ e, analyze_try ext signal frameRate = Except.error e →
      analyze_ppg true ext signal frameRate =
        AnalyzeOutcome.response
          { success := false, heartRate := none, heartRateVariability := none,
            respiratoryRate := none, signalQuality := 0, confidence := none,
            embeddings := none, warnings := [],
            error := some (("Processing error: ") ++ e) }) := by
  constructor
  · cases h : analyze_try ext signal frameRate with
    | ok r => exact ⟨r, by simp [analyze_ppg, h]⟩
    | error e => exact ⟨failure_response e, by simp [analyze_ppg, h]⟩
  · intro e he
    simp [analyze_ppg, he, failure_response]

/-- C9 witness: with pass-through externals a valid request raises the
TypeError at the embedding call, and the caller receives the
structured processing-error response. -/
theorem analyze_converts_exceptions_witness :
    analyze_try extDefault (List.replicate 30 0) 125 = Except.error missing_fs_message ∧
    analyze_ppg true extDefault (List.replicate 30 0) 125 =
      AnalyzeOutcome.response
        { success := false, heartRate := none, heartRateVariability := none,
          respiratoryRate := none, signalQuality := 0, confidence := none,
          embeddings := none, warnings := [],
          error := some (("Processing error: ") ++ missing_fs_message) } :=
  ⟨analyze_try_default_run,
    (analyze_converts_exceptions extDefault _ 125).2 missing_fs_message analyze_try_default_run⟩

/-- C10: no invocation of `analyze_ppg` ever returns a response with
success true, whatever the externals, signal and rate: the call at
main.py line 156 omits the required `fs` argument of
`extract_embeddings`, so every request that reaches it raises
TypeError and is converted to a failure response; the success branch
whose warning logic the claim describes is unreachable. -/
theorem analyze_never_succeeds (ext : Externals) (signal : List ℚ) (frameRate : ℚ)
    (r : PPGAnalysisResponse)
    (h : analyze_ppg true ext signal frameRate = AnalyzeOutcome.response r) :
    r.success = false := by
  have key : ∀ r0, analyze_try ext signal frameRate = Except.ok r0 → r0.success = false := by
    intro r0 h0
    unfold analyze_try at h0
    by_cases hlen : signal.length < 30
    · rw [if_pos hlen] at h0
      cases h0
      rfl
    · rw [if_neg hlen] at h0
      cases hp : preprocess_ppg_signal ext signal frameRate 125 (1 / 2) 8 true with
      | error e => simp only [hp] at h0; exact Except.noConfusion h0
      | ok pr =>
        obtain ⟨proc, fst⟩ := pr
        simp only [hp, call_extract_embeddings] at h0
        exact Except.noConfusion h0
  unfold analyze_ppg at h
  rw [if_pos rfl] at h
  cases ht : analyze_try ext signal frameRate with
  | ok r0 =>
    rw [ht] at h
    cases h
    exact key _ ht
  | error e =>
    rw [ht] at h
    cases h
    rfl

/-- C10 witness: a valid 30-sample request with benign externals ends
in the TypeError failure response, whose success flag is false. -/
theorem analyze_never_succeeds_witness :
    analyze_ppg true extDefault (List.replicate 30 0) 125 =
      AnalyzeOutcome.response (failure_response missing_fs_message) ∧
    (failure_response missing_fs_message).success = false := by
  have hrun : analyze_ppg true extDefault (List.replicate 30 0) 125 =
      AnalyzeOutcome.response (failure_response missing_fs_message) := by
    unfold analyze_ppg
    rw [if_pos rfl, analyze_try_default_run]
  exact ⟨hrun, analyze_never_succeeds extDefault _ 125 _ hrun⟩

end PPG
